import Mathlib

/-
Verification of the banner-resolution service (FastAPI + SQLAlchemy, `main.py` and
`src/banners.py`) against its natural-language specification.

The persistent store is embedded as explicit table lists in rowid (insertion) order.
Each HTTP handler of `main.py` becomes a pure Lean function from the store (plus the
request data and the timestamp the handler would draw from `datetime.now()`) to the
store after the transaction and the handler's response.
-/

namespace BannerApp

/-- Modelled from the spec: the Identity record. The `User` ORM class lives in
`src/__init__.py` / `src/db_session.py`, which are not among the sources; per the spec
(§3) it carries an identifier, an opaque bearer token and an admin flag, and the tests
construct it as `User(username=..., token=..., admin=...)`. Those are exactly the fields
`main.py` reads. -/
structure User where
  user_id : Int
  username : String
  token : String
  admin : Bool
deriving DecidableEq

/-- A row of the `banners` table (`src/banners.py`, class `Banner`). The timestamp
columns are the ISO strings produced by `datetime.now().isoformat()`. -/
structure Banner where
  banner_id : Int
  feature_id : Int
  content : String
  is_active : Bool
  created_at : String
  updated_at : String
deriving DecidableEq

/-- A row of the `banner_tags` junction table (`src/banners.py`, class `BannerTag`).
Its surrogate key `banner_tag_id` autoincrements, so duplicate (banner, tag) pairs are
not excluded by any constraint. -/
structure BannerTag where
  banner_tag_id : Int
  banner_id : Int
  tag_id : Int
deriving DecidableEq

/-- The store: the `users`, `tags`, `banners` and `banner_tags` tables, each in rowid
(insertion) order, plus the next values of the two autoincremented keys. The `tags`
table has a single caller-supplied primary-key column (`src/banners.py`, class `Tag`),
so it is a list of tag ids. -/
structure DB where
  users : List User
  tags : List Int
  banners : List Banner
  bannerTags : List BannerTag
  nextBannerId : Int
  nextBannerTagId : Int
deriving DecidableEq

/-- The empty store; SQLite rowids start at 1. -/
def initDB : DB := ⟨[], [], [], [], 1, 1⟩

/-- `session.get(Banner, banner_id)`: primary-key lookup. -/
def findBanner (db : DB) (bid : Int) : Option Banner :=
  db.banners.find? (fun b => b.banner_id == bid)

/-- The tag ids the junction table associates with a banner, in junction-row order. -/
def bannerTagIds (db : DB) (bid : Int) : List Int :=
  (db.bannerTags.filter (fun bt => bt.banner_id == bid)).map (fun bt => bt.tag_id)

/-- The tag ids loaded into `Banner.tags` (`lazy="selectin"`: a join through
`banner_tags` to `tags`): one entry per junction row of the banner whose tag id exists
in the `tags` table. -/
def loadedTagIds (db : DB) (bid : Int) : List Int :=
  ((db.bannerTags.filter
      (fun bt => bt.banner_id == bid && db.tags.contains bt.tag_id)).map
    (fun bt => bt.tag_id))

/-- `Banner.get_as_dict` (`src/banners.py` lines 24-33): the serialized banner record. -/
structure BannerDict where
  banner_id : Int
  tag_ids : List Int
  feature_id : Int
  content : String
  is_active : Bool
  created_at : String
  updated_at : String
deriving DecidableEq

/-- `Banner.get_as_dict`, evaluated against a store. -/
def getAsDict (db : DB) (b : Banner) : BannerDict :=
  ⟨b.banner_id, loadedTagIds db b.banner_id, b.feature_id, b.content, b.is_active,
    b.created_at, b.updated_at⟩

/-- Result rows of `select(Banner).join(Banner.tags)`: the SQL inner join of `banners`,
`banner_tags` and `tags`, one `(banner, tag id)` pair per junction row that resolves on
both sides. Neither handler adds an ORDER BY; of the three tables only `banner_tags`
has no index usable for the join, so the engine scans it as the outer loop and performs
primary-key lookups into `banners` and `tags`, returning rows in junction-row (rowid)
order. `session.scalars(...).all()` on a 2.0-style select does not deduplicate entity
rows. -/
def joinRows (db : DB) : List (Banner × Int) :=
  db.bannerTags.filterMap (fun bt =>
    if db.tags.contains bt.tag_id then
      (findBanner db bt.banner_id).map (fun b => (b, bt.tag_id))
    else none)

/-- The `feature_id` predicate of `get_banners` (`main.py` line 69): absent means no
constraint. -/
def featMatch (f : Option Int) (b : Banner) : Bool :=
  match f with
  | none => true
  | some v => b.feature_id == v

/-- The `tag_id` predicate of `get_banners` (`main.py` line 70): absent means no
constraint; the joined tag's id must equal the filter value. -/
def tagMatch (t : Option Int) (tid : Int) : Bool :=
  match t with
  | none => true
  | some v => tid == v

/-- The tag-existence pre-check of `get_banners` (`main.py` lines 64-67): when a
`tag_id` filter is supplied, `session.get(Tag, tag_id)` must find it. -/
def tagOk (db : DB) (t : Option Int) : Bool :=
  match t with
  | none => true
  | some v => db.tags.contains v

/-- The filtered (pre-slice) result of the `get_banners` query (`main.py` lines 68-71). -/
def filteredRows (db : DB) (f t : Option Int) : List Banner :=
  ((joinRows db).filter (fun r => featMatch f r.1 && tagMatch t r.2)).map (fun r => r.1)

/-- The rows of the `user_banner` query (`main.py` lines 50-53): banners joined to the
requested tag, restricted to the feature and to active banners. -/
def matchRows (db : DB) (fid tid : Int) : List Banner :=
  ((joinRows db).filter
      (fun r => r.1.feature_id == fid && r.2 == tid && r.1.is_active)).map (fun r => r.1)

/-- A handler outcome: either a response FastAPI builds from the returned value (with
the route's default status code) or a raised `HTTPException`. -/
inductive HResp (α : Type) where
  | response (status : Nat) (body : α)
  | httpException (status : Nat)
deriving DecidableEq

/-- `user_banner` (`main.py` lines 44-57): 404 when the tag id is not in the `tags`
table, 404 when the join yields no row, otherwise the content of the first result row.
The `use_last_revision` query parameter is accepted and never consulted. -/
def user_banner (db : DB) (tag_id feature_id : Int) (use_last_revision : Bool) :
    HResp String :=
  if db.tags.contains tag_id then
    match matchRows db feature_id tag_id with
    | [] => HResp.httpException 404
    | b :: _ => HResp.response 200 b.content
  else HResp.httpException 404

/-- Clamp an index the way a Python slice bound behaves on a list of length `n`
(step 1): negative bounds count from the end, bounds are clamped into `[0, n]`. -/
def pyIndex (n : Nat) (i : Int) : Nat :=
  if i < 0 then (Int.ofNat n + i).toNat else min i.toNat n

/-- Python's `l[a:b]` for a list. -/
def pySlice {α : Type} (l : List α) (a b : Int) : List α :=
  (l.take (pyIndex l.length b)).drop (pyIndex l.length a)

/-- `get_banners` (`main.py` lines 60-77): early empty response when the supplied tag
id is unknown; otherwise the filtered join rows, sliced by `results[offset:offset +
limit]` only when `limit` is supplied (`offset` defaults to 0), then serialized. -/
def get_banners (db : DB) (feature_id tag_id limit : Option Int) (offset : Int := 0) :
    List BannerDict :=
  if tagOk db tag_id then
    let results := filteredRows db feature_id tag_id
    let sliced :=
      match limit with
      | some l => pySlice results offset (offset + l)
      | none => results
    sliced.map (getAsDict db)
  else []

/-- `user_token_verification` (`main.py` lines 20-28): 401 when the header is absent or
no user row carries the token; otherwise the dependency passes. -/
def user_token_verification (db : DB) (token : Option String) : Option Nat :=
  match token with
  | none => some 401
  | some t =>
      if (db.users.filter (fun u => u.token == t)).length < 1 then some 401 else none

/-- `admin_token_verification` (`main.py` lines 31-41): 401 when the header is absent
or no user row carries the token; 403 when the first matching user is not an admin. -/
def admin_token_verification (db : DB) (token : Option String) : Option Nat :=
  match token with
  | none => some 401
  | some t =>
      match db.users.filter (fun u => u.token == t) with
      | [] => some 401
      | u :: _ => if u.admin then none else some 403

/-- The five routes of `main.py`. -/
inductive Endpoint where
  | userBanner
  | getBanners
  | postBanner
  | patchBannerRoute
  | deleteBannerRoute
deriving DecidableEq

/-- The dependency each route declares (`main.py` lines 44, 60, 87, 112, 139):
`user_banner` depends on `user_token_verification`, the four administrative routes on
`admin_token_verification`. -/
def guardOf : Endpoint → DB → Option String → Option Nat
  | Endpoint.userBanner => user_token_verification
  | Endpoint.getBanners => admin_token_verification
  | Endpoint.postBanner => admin_token_verification
  | Endpoint.patchBannerRoute => admin_token_verification
  | Endpoint.deleteBannerRoute => admin_token_verification

/-- The `PostBanner` request body (`main.py` lines 80-84). -/
structure PostBanner where
  tag_ids : List Int
  feature_id : Int
  content : String
  is_active : Bool
deriving DecidableEq

/-- The get-or-create loop over supplied tag ids (`main.py` lines 93-97 and 121-125):
each id absent from the `tags` table is inserted; an id already inserted for an earlier
occurrence is found again (`session.get` autoflushes the pending row). -/
def ensureAll (tags : List Int) : List Int → List Int
  | [] => tags
  | t :: ts => ensureAll (if tags.contains t then tags else tags ++ [t]) ts

/-- Junction rows the flush inserts for a banner: one row per occurrence in the
collection, with consecutive autoincremented surrogate keys starting at `n`. -/
def buildRows (bid n : Int) : List Int → List BannerTag
  | [] => []
  | t :: ts => ⟨n, bid, t⟩ :: buildRows bid (n + 1) ts

/-- `post_banner` (`main.py` lines 87-102): inserts the banner with `created_at =
updated_at = now`, get-or-creates every supplied tag id, appends one junction row per
occurrence of the supplied list (the list collection persists duplicate entries), and
returns the new banner id (response 201). -/
def post_banner (db : DB) (args : PostBanner) (now : String) : DB × Int :=
  let bid := db.nextBannerId
  let banner : Banner := ⟨bid, args.feature_id, args.content, args.is_active, now, now⟩
  ({ db with
      tags := ensureAll db.tags args.tag_ids
      banners := db.banners ++ [banner]
      bannerTags := db.bannerTags ++ buildRows bid db.nextBannerTagId args.tag_ids
      nextBannerId := bid + 1
      nextBannerTagId := db.nextBannerTagId + (args.tag_ids.length : Int) }, bid)

/-- The `PatchBanner` request body (`main.py` lines 105-109): every field optional,
absent fields encoded as `none`. -/
structure PatchBanner where
  tag_ids : Option (List Int)
  feature_id : Option Int
  content : Option String
  is_active : Option Bool
deriving DecidableEq

/-- The junction-table effect of `banner.tags = []` followed by appending the resolved
tags (`main.py` lines 119-126). At flush, collection history is the difference between
the loaded collection and the final one: rows of the banner whose tag stays in the
supplied set are kept as they are, rows whose tag left the set are deleted, and one new
row is inserted per supplied occurrence of a tag that was not previously associated.
Every supplied id is get-or-created in the `tags` table. -/
def replaceAssociations (db : DB) (bid : Int) (supplied : List Int) : DB :=
  let oldTags := bannerTagIds db bid
  let kept := db.bannerTags.filter
    (fun bt => bt.banner_id != bid || supplied.contains bt.tag_id)
  let addedOccs := supplied.filter (fun t => !(oldTags.contains t))
  { db with
      tags := ensureAll db.tags supplied
      bannerTags := kept ++ buildRows bid db.nextBannerTagId addedOccs
      nextBannerTagId := db.nextBannerTagId + (addedOccs.length : Int) }

/-- The scalar-field part of a patch (`main.py` lines 127-133): each present field
overwrites, then `updated_at` is set to the handler's `datetime.now().isoformat()`. -/
def applyScalarPatch (args : PatchBanner) (now : String) (b : Banner) : Banner :=
  let b1 := match args.feature_id with
    | some f => { b with feature_id := f }
    | none => b
  let b2 := match args.content with
    | some c => { b1 with content := c }
    | none => b1
  let b3 := match args.is_active with
    | some a => { b2 with is_active := a }
    | none => b2
  { b3 with updated_at := now }

/-- `patch_banner` (`main.py` lines 112-136): 404 (store untouched) when the banner id
does not resolve; otherwise the tag associations are replaced when `tag_ids` is
present, the present scalar fields are overwritten, `updated_at` is refreshed
unconditionally, and the handler responds 200. -/
def patch_banner (db : DB) (bid : Int) (args : PatchBanner) (now : String) : DB × Nat :=
  match findBanner db bid with
  | none => (db, 404)
  | some _ =>
      let db1 := match args.tag_ids with
        | some l => replaceAssociations db bid l
        | none => db
      ({ db1 with
          banners := db1.banners.map
            (fun b => if b.banner_id == bid then applyScalarPatch args now b else b) },
        200)

/-- `delete_banner` (`main.py` lines 139-148): when the banner resolves, the row and
its junction rows are deleted and the handler responds 204 with no body; when it does
not, the handler executes `return status.HTTP_404_NOT_FOUND`, so FastAPI serializes
the integer 404 as the JSON body of a response with the route's default status 200. -/
def delete_banner (db : DB) (bid : Int) : DB × Nat × Option Int :=
  match findBanner db bid with
  | some _ =>
      ({ db with
          banners := db.banners.filter (fun b => !(b.banner_id == bid))
          bannerTags := db.bannerTags.filter (fun bt => !(bt.banner_id == bid)) },
        204, none)
  | none => (db, 200, some 404)

/-! Concrete stores, each reached from the empty store through the handlers; they feed
the closed witnesses and counterexamples below. -/

/-- One banner (id 1, feature 1, content "A") associated with tag 1. -/
def exState1 : DB := (post_banner initDB ⟨[1], 1, "A", true⟩ "t1").1

/-- A second banner (id 2, feature 1, content "B") also associated with tag 1. -/
def exState2 : DB := (post_banner exState1 ⟨[1], 1, "B", true⟩ "t2").1

/-- Banner 1 patched to tag set [2]: its junction row is deleted and a fresh one
inserted. -/
def exState3 : DB := (patch_banner exState2 1 ⟨some [2], none, none, none⟩ "t3").1

/-- Banner 1 patched back to tag set [1]: its junction row now sits after banner 2's. -/
def exState4 : DB := (patch_banner exState3 1 ⟨some [1], none, none, none⟩ "t4").1

/-- One banner with an empty tag list. -/
def taglessState : DB := (post_banner initDB ⟨[], 5, "c", true⟩ "t").1

/-- One banner created with the duplicated tag list [1, 1]. -/
def dupTagState : DB := (post_banner initDB ⟨[1, 1], 1, "c", true⟩ "t").1

/-- One banner (id 1, feature 7) with tags 1 and 2. -/
def twoTagState : DB := (post_banner initDB ⟨[1, 2], 7, "x", true⟩ "t").1

/-- Three banners on feature 1, each associated with tag 1. -/
def threeState1 : DB := (post_banner initDB ⟨[1], 1, "a", true⟩ "t1").1

/-- Second of the three banners. -/
def threeState2 : DB := (post_banner threeState1 ⟨[1], 1, "b", true⟩ "t2").1

/-- Third of the three banners. -/
def threeState3 : DB := (post_banner threeState2 ⟨[1], 1, "c", true⟩ "t3").1

/-- A store with a non-admin user (token "tok") and an admin (token "adm"). -/
def authState : DB :=
  { initDB with users := [⟨1, "u", "tok", false⟩, ⟨2, "a", "adm", true⟩] }

/-! Helper lemmas about the store primitives. -/

/-- Membership in the get-or-create accumulator: exactly the prior registry plus the
supplied ids. -/
theorem ensureAll_mem (a : Int) (l : List Int) : ∀ tags : List Int,
    a ∈ ensureAll tags l ↔ a ∈ tags ∨ a ∈ l := by
  induction l with
  | nil => intro tags; simp [ensureAll]
  | cons t ts ih =>
      intro tags
      show a ∈ ensureAll (if tags.contains t then tags else tags ++ [t]) ts ↔ _
      rw [ih]
      by_cases h : tags.contains t
      · have hm : t ∈ tags := List.elem_iff.mp h
        simp only [if_pos h, List.mem_cons]
        constructor
        · tauto
        · rintro (h1 | h1 | h1)
          · exact Or.inl h1
          · exact Or.inl (h1 ▸ hm)
          · exact Or.inr h1
      · simp only [if_neg h, List.mem_append, List.mem_singleton, List.mem_cons]
        tauto

/-- Every junction row built for a banner carries that banner's id. -/
theorem mem_buildRows (bid : Int) (l : List Int) (bt : BannerTag) : ∀ n : Int,
    bt ∈ buildRows bid n l → bt.banner_id = bid ∧ bt.tag_id ∈ l := by
  induction l with
  | nil => intro n h; cases h
  | cons t ts ih =>
      intro n h
      rcases List.mem_cons.mp h with h1 | h1
      · subst h1; exact ⟨rfl, List.mem_cons_self t ts⟩
      · obtain ⟨hb, ht⟩ := ih (n + 1) h1
        exact ⟨hb, List.mem_cons_of_mem t ht⟩

/-- The rows built for a banner all survive the banner-id filter, and their tag ids are
the supplied list. -/
theorem buildRows_filter_map (bid : Int) (l : List Int) : ∀ n : Int,
    ((buildRows bid n l).filter (fun bt => bt.banner_id == bid)).map
      (fun bt => bt.tag_id) = l := by
  induction l with
  | nil => intro n; rfl
  | cons t ts ih => intro n; simp [buildRows, List.filter_cons, ih]

/-- Membership characterization of a banner's association tag ids. -/
theorem mem_bannerTagIds (db : DB) (bid t : Int) :
    t ∈ bannerTagIds db bid ↔
      ∃ bt ∈ db.bannerTags, bt.banner_id = bid ∧ bt.tag_id = t := by
  simp only [bannerTagIds, List.mem_map, List.mem_filter, beq_iff_eq]
  constructor
  · rintro ⟨bt, ⟨h1, h2⟩, rfl⟩
    exact ⟨bt, h1, h2, rfl⟩
  · rintro ⟨bt, h1, h2, rfl⟩
    exact ⟨bt, ⟨h1, h2⟩, rfl⟩

/-- Every row of the three-way join carries a tag id present in the `tags` table. -/
theorem joinRows_tag_mem (db : DB) (r : Banner × Int) (h : r ∈ joinRows db) :
    db.tags.contains r.2 = true := by
  simp only [joinRows, List.mem_filterMap] at h
  obtain ⟨bt, _, hr⟩ := h
  by_cases hc : db.tags.contains bt.tag_id
  · rw [if_pos hc] at hr
    obtain ⟨b, _, hb2⟩ := Option.map_eq_some'.mp hr
    rw [← hb2]
    exact hc
  · rw [if_neg hc] at hr
    cases hr

/-- A banner among the resolve-query rows forces the requested tag to exist. -/
theorem matchRows_contains (db : DB) (fid tid : Int) (b : Banner)
    (h : b ∈ matchRows db fid tid) : db.tags.contains tid = true := by
  simp only [matchRows, List.mem_map, List.mem_filter] at h
  obtain ⟨r, ⟨hr, hp⟩, _⟩ := h
  simp only [Bool.and_eq_true, beq_iff_eq] at hp
  rw [← hp.1.2]
  exact joinRows_tag_mem db r hr

/-- For every tag of the supplied list there is a built junction row carrying it. -/
theorem buildRows_mem_of_tag (bid : Int) (l : List Int) (t : Int) : ∀ n : Int,
    t ∈ l → ∃ bt ∈ buildRows bid n l, bt.banner_id = bid ∧ bt.tag_id = t := by
  induction l with
  | nil => intro n h; cases h
  | cons x xs ih =>
      intro n h
      rcases List.mem_cons.mp h with h1 | h1
      · exact ⟨⟨n, bid, x⟩, List.mem_cons_self _ _, rfl, h1.symm⟩
      · obtain ⟨bt, hm, hb, ht⟩ := ih (n + 1) h1
        exact ⟨bt, List.mem_cons_of_mem _ hm, hb, ht⟩

/-- Replacing a banner's associations makes its association tag set exactly the
supplied identifiers. -/
theorem replaceAssociations_tagIds (db : DB) (bid : Int) (l : List Int) (t : Int) :
    t ∈ bannerTagIds (replaceAssociations db bid l) bid ↔ t ∈ l := by
  have hbt : (replaceAssociations db bid l).bannerTags =
      db.bannerTags.filter (fun bt => bt.banner_id != bid || l.contains bt.tag_id) ++
        buildRows bid db.nextBannerTagId
          (l.filter (fun x => !((bannerTagIds db bid).contains x))) := rfl
  rw [mem_bannerTagIds, hbt]
  constructor
  · rintro ⟨bt, hmem, hbid, htag⟩
    rcases List.mem_append.mp hmem with hk | hb
    · have hcond := (List.mem_filter.mp hk).2
      rcases Bool.or_eq_true_iff.mp hcond with hne | hin
      · exact absurd hbid (by simpa using hne)
      · exact htag ▸ List.elem_iff.mp hin
    · have hrow := mem_buildRows bid _ bt db.nextBannerTagId hb
      have htl := List.mem_filter.mp hrow.2
      exact htag ▸ htl.1
  · intro hl
    by_cases hold : t ∈ bannerTagIds db bid
    · obtain ⟨bt, hmem, hbid, htag⟩ := (mem_bannerTagIds db bid t).mp hold
      refine ⟨bt, List.mem_append.mpr (Or.inl ?_), hbid, htag⟩
      refine List.mem_filter.mpr ⟨hmem, ?_⟩
      exact Bool.or_eq_true_iff.mpr (Or.inr (List.elem_iff.mpr (htag ▸ hl)))
    · have hnc : ((bannerTagIds db bid).contains t) = false := by
        cases hcc : (bannerTagIds db bid).contains t
        · rfl
        · exact absurd (List.elem_iff.mp hcc) hold
      have hadd : t ∈ l.filter (fun x => !((bannerTagIds db bid).contains x)) :=
        List.mem_filter.mpr ⟨hl, by rw [hnc]; rfl⟩
      obtain ⟨bt, hm, hb, ht⟩ :=
        buildRows_mem_of_tag bid _ t db.nextBannerTagId hadd
      exact ⟨bt, List.mem_append.mpr (Or.inr hm), hb, ht⟩

/-- C1: for every store and every (feature_id, tag_id) pair, `GET /user_banner` fails
with 404 when the tag id is not in the Tag Registry, fails with 404 when no active
banner matches the pair, and when exactly one active banner is associated with the tag
and matches the feature it responds 200 with that banner's content. -/
theorem user_banner_c1 (db : DB) (tid fid : Int) (ulr : Bool) :
    (db.tags.contains tid = false →
      user_banner db tid fid ulr = HResp.httpException 404) ∧
    (matchRows db fid tid = [] →
      user_banner db tid fid ulr = HResp.httpException 404) ∧
    (∀ b : Banner, b ∈ matchRows db fid tid →
      (∀ b' : Banner, b' ∈ matchRows db fid tid → b' = b) →
      user_banner db tid fid ulr = HResp.response 200 b.content) := by
  refine ⟨?_, ?_, ?_⟩
  · intro h
    unfold user_banner
    rw [h]
    simp
  · intro h
    unfold user_banner
    rw [h]
    split <;> rfl
  · intro b hb huniq
    have hc : db.tags.contains tid = true := matchRows_contains db fid tid b hb
    unfold user_banner
    rw [hc]
    cases hmr : matchRows db fid tid with
    | nil => rw [hmr] at hb; cases hb
    | cons x rest =>
        have hx : x = b := huniq x (by rw [hmr]; exact List.mem_cons_self x rest)
        simp [hx]

/-- Closed instantiation of `user_banner_c1`: one active banner on (feature 1, tag 1)
with content "a" is returned, and an unknown tag yields 404. -/
theorem user_banner_c1_witness :
    user_banner threeState1 1 1 true = HResp.response 200 "a" ∧
    user_banner threeState1 42 1 true = HResp.httpException 404 :=
  ⟨(user_banner_c1 threeState1 1 1 true).2.2 ⟨1, 1, "a", true, "t1", "t1"⟩
      (by decide) (by decide),
    (user_banner_c1 threeState1 42 1 true).1 (by decide)⟩

/-- C2 counterexample: in `exState4` — reached by creating banner 1 (content "A") and
banner 2 (content "B"), both active on (feature 1, tag 1), then patching banner 1's
tag set away and back so its association row is recreated after banner 2's — the
matching banner with the lowest identifier is banner 1 with content "A", yet the
resolve operation returns banner 2's content "B". -/
theorem user_banner_c2_counterexample :
    (⟨1, 1, "A", true, "t1", "t4"⟩ : Banner) ∈ matchRows exState4 1 1 ∧
    (∀ b : Banner, b ∈ matchRows exState4 1 1 → 1 ≤ b.banner_id) ∧
    user_banner exState4 1 1 true = HResp.response 200 "B" ∧
    "B" ≠ "A" := by decide

/-- C2 (amended): when at least one active banner matches (feature_id, tag_id), the
resolve operation returns the content of the first matching row in store order — the
order of the association records — which need not belong to the banner with the lowest
identifier. -/
theorem user_banner_c2_amended (db : DB) (tid fid : Int) (ulr : Bool) (b : Banner)
    (rest : List Banner) (h : matchRows db fid tid = b :: rest) :
    user_banner db tid fid ulr = HResp.response 200 b.content := by
  have hc : db.tags.contains tid = true :=
    matchRows_contains db fid tid b (by rw [h]; exact List.mem_cons_self b rest)
  unfold user_banner
  rw [hc, h]
  simp

/-- Closed instantiation of `user_banner_c2_amended` on `exState4`. -/
theorem user_banner_c2_witness :
    user_banner exState4 1 1 true = HResp.response 200 "B" :=
  user_banner_c2_amended exState4 1 1 true ⟨2, 1, "B", true, "t2", "t2"⟩
    [⟨1, 1, "A", true, "t1", "t4"⟩] (by decide)

/-- C3: a patch carrying only `content` responds 200 and changes exactly that banner's
content and `updated_at`, leaving `feature_id`, `is_active`, the tag associations and
the Tag Registry as they were; a patch of an absent banner id responds 404 and leaves
the store unchanged. -/
theorem patch_banner_c3 (db : DB) (bid : Int) (c now : String) :
    (findBanner db bid = none →
      patch_banner db bid ⟨none, none, some c, none⟩ now = (db, 404)) ∧
    ((findBanner db bid).isSome = true →
      patch_banner db bid ⟨none, none, some c, none⟩ now =
        ({ db with banners := db.banners.map (fun b =>
            if b.banner_id == bid then { b with content := c, updated_at := now }
            else b) }, 200)) := by
  constructor
  · intro h
    simp [patch_banner, h]
  · intro h
    obtain ⟨b0, hb0⟩ := Option.isSome_iff_exists.mp h
    simp [patch_banner, hb0, applyScalarPatch]

/-- Closed instantiation of `patch_banner_c3` on the two-tag store. -/
theorem patch_banner_c3_witness :
    patch_banner twoTagState 1 ⟨none, none, some "y", none⟩ "t2" =
      ({ twoTagState with banners := twoTagState.banners.map (fun b =>
          if b.banner_id == 1 then { b with content := "y", updated_at := "t2" }
          else b) }, 200) :=
  (patch_banner_c3 twoTagState 1 "y" "t2").2 (by decide)

/-- C10: a patch whose payload is empty (every field absent) on an existing banner
still responds 200 and refreshes that banner's `updated_at`, while `feature_id`,
`content`, `is_active`, the tag associations and the Tag Registry are unchanged. -/
theorem patch_banner_c10 (db : DB) (bid : Int) (now : String)
    (h : (findBanner db bid).isSome = true) :
    patch_banner db bid ⟨none, none, none, none⟩ now =
      ({ db with banners := db.banners.map (fun b =>
          if b.banner_id == bid then { b with updated_at := now } else b) }, 200) := by
  obtain ⟨b0, hb0⟩ := Option.isSome_iff_exists.mp h
  simp [patch_banner, hb0, applyScalarPatch]

/-- Closed instantiation of `patch_banner_c10` on the two-tag store. -/
theorem patch_banner_c10_witness :
    patch_banner twoTagState 1 ⟨none, none, none, none⟩ "t9" =
      ({ twoTagState with banners := twoTagState.banners.map (fun b =>
          if b.banner_id == 1 then { b with updated_at := "t9" } else b) }, 200) :=
  patch_banner_c10 twoTagState 1 "t9" (by decide)

/-- C4: a patch whose `tag_ids` field is present (possibly the empty list) responds
200 and replaces the banner's association tag set with exactly the supplied
identifiers — previously associated tags outside the list are no longer associated —
and every supplied identifier exists in the Tag Registry afterwards. -/
theorem patch_banner_c4 (db : DB) (bid : Int) (l : List Int) (now : String)
    (h : (findBanner db bid).isSome = true) :
    ((patch_banner db bid ⟨some l, none, none, none⟩ now).2 = 200) ∧
    (∀ t : Int,
      t ∈ bannerTagIds (patch_banner db bid ⟨some l, none, none, none⟩ now).1 bid ↔
        t ∈ l) ∧
    (∀ t : Int, t ∈ l →
      t ∈ (patch_banner db bid ⟨some l, none, none, none⟩ now).1.tags) := by
  obtain ⟨b0, hb0⟩ := Option.isSome_iff_exists.mp h
  unfold patch_banner
  rw [hb0]
  refine ⟨rfl, ?_, ?_⟩
  · intro t
    exact replaceAssociations_tagIds db bid l t
  · intro t ht
    exact (ensureAll_mem t l db.tags).mpr (Or.inr ht)

/-- Closed instantiation of `patch_banner_c4`: patching the two-tag banner to
`tag_ids = [9]` drops tag 2 and associates (and registers) tag 9. -/
theorem patch_banner_c4_witness :
    ((patch_banner twoTagState 1 ⟨some [9], none, none, none⟩ "t2").2 = 200) ∧
    (2 ∈ bannerTagIds (patch_banner twoTagState 1 ⟨some [9], none, none, none⟩ "t2").1 1 ↔
      2 ∈ ([9] : List Int)) ∧
    (9 ∈ bannerTagIds (patch_banner twoTagState 1 ⟨some [9], none, none, none⟩ "t2").1 1 ↔
      9 ∈ ([9] : List Int)) ∧
    (9 ∈ (patch_banner twoTagState 1 ⟨some [9], none, none, none⟩ "t2").1.tags) := by
  have h := patch_banner_c4 twoTagState 1 [9] "t2" (by decide)
  exact ⟨h.1, h.2.1 2, h.2.1 9, h.2.2 9 (by decide)⟩

/-- C9 counterexample: creating a banner with `tag_ids = [1, 1]` on the empty store
yields two association records for the pair (banner 1, tag 1) — the repeated
identifier does not collapse to a single association. -/
theorem post_banner_c9_counterexample :
    bannerTagIds dupTagState 1 = [1, 1] ∧
    dupTagState.bannerTags.length = 2 ∧
    dupTagState.tags = [1] := by decide

/-- C9 (amended): after a create, the new banner carries one association record per
occurrence of the supplied `tag_ids` list — a repeated identifier yields one record
per occurrence rather than collapsing — so its distinct tag set is exactly the set of
distinct supplied identifiers, and every supplied identifier exists in the Tag
Registry afterwards; after a patch whose `tag_ids` is present, the banner's
association tag set is exactly the supplied identifiers, each present in the
Registry. -/
theorem post_banner_c9_amended (db : DB) (args : PostBanner) (now : String)
    (hfresh : bannerTagIds db db.nextBannerId = []) :
    (bannerTagIds (post_banner db args now).1 db.nextBannerId = args.tag_ids) ∧
    (∀ t : Int, t ∈ args.tag_ids → t ∈ (post_banner db args now).1.tags) ∧
    (∀ bid : Int, (findBanner db bid).isSome = true → ∀ l : List Int,
      ∀ now2 : String, ∀ t : Int,
        t ∈ bannerTagIds (patch_banner db bid ⟨some l, none, none, none⟩ now2).1 bid ↔
          t ∈ l) := by
  refine ⟨?_, ?_, ?_⟩
  · have hsplit : bannerTagIds (post_banner db args now).1 db.nextBannerId =
        bannerTagIds db db.nextBannerId ++
          ((buildRows db.nextBannerId db.nextBannerTagId args.tag_ids).filter
            (fun bt => bt.banner_id == db.nextBannerId)).map (fun bt => bt.tag_id) := by
      unfold bannerTagIds post_banner
      simp [List.filter_append]
    rw [hsplit, hfresh, List.nil_append,
      buildRows_filter_map db.nextBannerId args.tag_ids db.nextBannerTagId]
  · intro t ht
    exact (ensureAll_mem t args.tag_ids db.tags).mpr (Or.inr ht)
  · intro bid hb l now2 t
    obtain ⟨b0, hb0⟩ := Option.isSome_iff_exists.mp hb
    unfold patch_banner
    rw [hb0]
    exact replaceAssociations_tagIds db bid l t

/-- Closed instantiation of `post_banner_c9_amended` on the duplicated create. -/
theorem post_banner_c9_witness :
    bannerTagIds dupTagState 1 = [1, 1] ∧ 1 ∈ dupTagState.tags := by
  have h := post_banner_c9_amended initDB ⟨[1, 1], 1, "c", true⟩ "t" (by decide)
  exact ⟨h.1, h.2.1 1 (by decide)⟩

/-- C5 counterexample: `taglessState` holds one banner (created with an empty tag
list) that satisfies the empty conjunction of predicates, yet the administrative list
with no filters returns no record at all — the query's inner join through the
association table drops banners with zero tags. -/
theorem get_banners_c5_counterexample :
    taglessState.banners = [⟨1, 5, "c", true, "t", "t"⟩] ∧
    get_banners taglessState none none none 0 = [] := by decide

/-- C5 (amended): the administrative list returns one serialized record per
association row satisfying the conjunction of the supplied predicates — so a banner
appears once per matching association, and a banner with zero tag associations never
appears — with absent predicates imposing no constraint on those rows, and a supplied
tag_id absent from the Registry yields an empty sequence rather than an error. -/
theorem get_banners_c5_amended (db : DB) (f t : Option Int) :
    (∀ tv : Int, t = some tv → db.tags.contains tv = false →
      get_banners db f t none 0 = []) ∧
    (tagOk db t = true →
      get_banners db f t none 0 = (filteredRows db f t).map (getAsDict db)) ∧
    (∀ d : BannerDict, d ∈ get_banners db f t none 0 ↔
      (tagOk db t = true ∧ ∃ r ∈ joinRows db,
        featMatch f r.1 = true ∧ tagMatch t r.2 = true ∧ d = getAsDict db r.1)) := by
  have hval : tagOk db t = true →
      get_banners db f t none 0 = (filteredRows db f t).map (getAsDict db) := by
    intro hok
    unfold get_banners
    rw [hok]
    simp
  refine ⟨?_, hval, ?_⟩
  · rintro tv rfl hc
    have hm : tv ∉ db.tags := by simpa using hc
    simp only [get_banners, tagOk]
    simp [hm]
  · intro d
    cases hok : tagOk db t with
    | true =>
        rw [hval hok]
        simp only [true_and]
        unfold filteredRows
        constructor
        · intro hd
          simp only [List.mem_map, List.mem_filter, Bool.and_eq_true] at hd
          obtain ⟨b, ⟨r, ⟨hr, hfm, htm⟩, hb⟩, hdict⟩ := hd
          exact ⟨r, hr, hfm, htm, by rw [← hdict, ← hb]⟩
        · rintro ⟨r, hr, hfm, htm, rfl⟩
          simp only [List.mem_map, List.mem_filter, Bool.and_eq_true]
          exact ⟨r.1, ⟨r, ⟨hr, hfm, htm⟩, rfl⟩, rfl⟩
    | false =>
        have hend : get_banners db f t none 0 = [] := by
          unfold get_banners
          rw [hok]
          rfl
        rw [hend]
        simp

/-- Closed instantiation of `get_banners_c5_amended`: listing by the known tag 1
equals the serialized filtered rows. -/
theorem get_banners_c5_witness :
    get_banners threeState3 none (some 1) none 0 =
      (filteredRows threeState3 none (some 1)).map (getAsDict threeState3) :=
  (get_banners_c5_amended threeState3 none (some 1)).2.1 (by decide)

/-- C6: with `limit` omitted the whole filtered result is returned whatever the
offset; with `limit = 1, offset = 0` against a filtered result of three rows exactly
one record is returned; and for any supplied limit, an offset at or beyond the result
count yields the empty sequence rather than an error. -/
theorem get_banners_c6 (db : DB) (f t : Option Int) (lim off : Int) :
    (tagOk db t = true →
      get_banners db f t none off = (filteredRows db f t).map (getAsDict db)) ∧
    (tagOk db t = true → (filteredRows db f t).length = 3 →
      (get_banners db f t (some 1) 0).length = 1) ∧
    (((filteredRows db f t).length : Int) ≤ off →
      get_banners db f t (some lim) off = []) := by
  refine ⟨?_, ?_, ?_⟩
  · intro hok
    unfold get_banners
    rw [hok]
    simp
  · intro hok h3
    unfold get_banners
    rw [hok]
    simp only [if_true]
    rw [List.length_map]
    unfold pySlice pyIndex
    rw [h3]
    simp [h3]
  · intro hof
    unfold get_banners
    cases hok : tagOk db t with
    | true =>
        simp only [if_true]
        have hnn : ¬ off < 0 := by
          have h0 : (0 : Int) ≤ ((filteredRows db f t).length : Int) := by positivity
          omega
        have hlen : pyIndex (filteredRows db f t).length off =
            (filteredRows db f t).length := by
          unfold pyIndex
          rw [if_neg hnn]
          omega
        unfold pySlice
        rw [hlen]
        have hnil : ((filteredRows db f t).take
            (pyIndex (filteredRows db f t).length (off + lim))).drop
              (filteredRows db f t).length = [] := by
          apply List.drop_eq_nil_of_le
          rw [List.length_take]
          exact min_le_right _ _
        rw [hnil]
        rfl
    | false => rfl

/-- Closed instantiation of `get_banners_c6` on the three-banner store. -/
theorem get_banners_c6_witness :
    (get_banners threeState3 none none (some 1) 0).length = 1 ∧
    get_banners threeState3 none none (some 2) 5 = [] :=
  ⟨(get_banners_c6 threeState3 none none 1 0).2.1 (by decide) (by decide),
    (get_banners_c6 threeState3 none none 2 5).2.2 (by decide)⟩

/-- C7: evaluating `delete_banner` at the failing input. The first delete of banner 1
responds 204 and removes the banner and both its association rows (the tags persist in
the Registry); but the second delete of the same id produces a response whose HTTP
status is 200 and whose JSON body is the integer 404 — the handler returns
`status.HTTP_404_NOT_FOUND` instead of raising it, so the claimed NotFound status
never reaches the caller and the outcome is a success-status response. -/
theorem delete_banner_c7_bug :
    (delete_banner twoTagState 1).2 = (204, none) ∧
    (delete_banner twoTagState 1).1.banners = [] ∧
    (delete_banner twoTagState 1).1.bannerTags = [] ∧
    (delete_banner twoTagState 1).1.tags = [1, 2] ∧
    (delete_banner (delete_banner twoTagState 1).1 1).2 = (200, some 404) := by decide

/-- C8: a missing token yields 401 from both dependencies; a token matching no user
yields 401 from both; when a user matches, the resolve-path dependency passes whatever
the admin flag, while the admin dependency returns 403 exactly for a non-admin match
(so a 403 presupposes a present, matching token — 401 is decided first); and the route
table attaches the user dependency to the resolve endpoint and the admin dependency to
the four administrative endpoints. -/
theorem auth_c8 (db : DB) (tk : String) :
    (user_token_verification db none = some 401) ∧
    (admin_token_verification db none = some 401) ∧
    (db.users.filter (fun x => x.token == tk) = [] →
      user_token_verification db (some tk) = some 401 ∧
      admin_token_verification db (some tk) = some 401) ∧
    (∀ u : User, ∀ rest : List User,
      db.users.filter (fun x => x.token == tk) = u :: rest →
        user_token_verification db (some tk) = none ∧
        (u.admin = false → admin_token_verification db (some tk) = some 403) ∧
        (u.admin = true → admin_token_verification db (some tk) = none)) ∧
    (∀ s : Option String, admin_token_verification db s = some 403 →
      ∃ tv : String, ∃ u : User, ∃ rest : List User, s = some tv ∧
        db.users.filter (fun x => x.token == tv) = u :: rest ∧ u.admin = false) ∧
    (guardOf Endpoint.userBanner = user_token_verification) ∧
    (guardOf Endpoint.getBanners = admin_token_verification) ∧
    (guardOf Endpoint.postBanner = admin_token_verification) ∧
    (guardOf Endpoint.patchBannerRoute = admin_token_verification) ∧
    (guardOf Endpoint.deleteBannerRoute = admin_token_verification) := by
  refine ⟨rfl, rfl, ?_, ?_, ?_, rfl, rfl, rfl, rfl, rfl⟩
  · intro hf
    simp only [user_token_verification, admin_token_verification]
    rw [hf]
    exact ⟨rfl, rfl⟩
  · intro u rest hf
    simp only [user_token_verification, admin_token_verification]
    rw [hf]
    refine ⟨?_, ?_, ?_⟩
    · have hlen : ¬ (u :: rest).length < 1 := by simp
      rw [if_neg hlen]
    · intro ha
      simp [ha]
    · intro ha
      simp [ha]
  · intro s h403
    cases s with
    | none => simp [admin_token_verification] at h403
    | some tv =>
        simp only [admin_token_verification] at h403
        cases hf : db.users.filter (fun x => x.token == tv) with
        | nil =>
            rw [hf] at h403
            cases h403
        | cons u rest =>
            rw [hf] at h403
            cases hadm : u.admin with
            | true => simp [hadm] at h403
            | false => exact ⟨tv, u, rest, rfl, hf, hadm⟩

/-- Closed instantiation of `auth_c8` on a store with a non-admin token "tok" and no
user for token "bad". -/
theorem auth_c8_witness :
    admin_token_verification authState (some "tok") = some 403 ∧
    user_token_verification authState (some "tok") = none ∧
    user_token_verification authState none = some 401 ∧
    admin_token_verification authState (some "bad") = some 401 :=
  ⟨((auth_c8 authState "tok").2.2.2.1 ⟨1, "u", "tok", false⟩ [] (by decide)).2.1 rfl,
    ((auth_c8 authState "tok").2.2.2.1 ⟨1, "u", "tok", false⟩ [] (by decide)).1,
    (auth_c8 authState "tok").1,
    ((auth_c8 authState "bad").2.2.1 (by decide)).2⟩

end BannerApp
